import Mathlib

/-!
Verification development for the Nyuu GUI file-preparation and
tool-acquisition pipeline (`nyuu_gui.py`).

Shallow embedding: file contents are `List Nat` (byte values), filesystem
and subprocess effects are made explicit as environment records and effect
traces.  Each definition mirrors one Python function of the source.
-/

namespace NyuuGui

/-- Python substring test `sub in s` on character lists:
true iff `sub` occurs contiguously inside `s`. -/
def hasSub (s sub : List Char) : Bool :=
  sub.isPrefixOf s ||
    match s with
    | [] => false
    | _ :: t => hasSub t sub

/-- Python string containment `sub in s`. -/
def strIn (sub s : String) : Bool := hasSub s.data sub.data

/-- Proposition: `sub` occurs contiguously inside `s`. -/
def StrContains (s sub : String) : Prop := ∃ p q : String, s = p ++ sub ++ q

/-- Python format spec `{n:03d}`: decimal, zero-padded on the left to
width 3 (wider numbers are printed unchanged). -/
def pad3 (n : Nat) : String :=
  if n < 10 then "00" ++ toString n
  else if n < 100 then "0" ++ toString n
  else toString n

/-! ## FileProcessor.split_file (nyuu_gui.py lines 276-325)

The read loop `chunk = f.read(chunk_size); if not chunk: break` yields the
successive `chunk_size`-byte blocks of the file (`f.read(0)` returns an
empty bytes object, which is falsy, so a zero chunk size breaks at once). -/

/-- The successive blocks produced by the read loop of `split_file`. -/
def readChunks (chunkSize : Nat) (data : List Nat) : List (List Nat) :=
  if h : chunkSize = 0 ∨ data = [] then []
  else data.take chunkSize :: readChunks chunkSize (data.drop chunkSize)
termination_by data.length
decreasing_by
  have hc : chunkSize ≠ 0 := fun hx => h (Or.inl hx)
  have hd : data ≠ [] := fun hx => h (Or.inr hx)
  have hlen : 0 < data.length := List.length_pos.mpr hd
  have hc0 : 0 < chunkSize := Nat.pos_of_ne_zero hc
  simp only [List.length_drop]
  omega

/-- One output chunk file: its name and the bytes written to it. -/
structure Chunk where
  name : String
  data : List Nat
deriving DecidableEq, Repr

/-- Names the blocks `original.ext.001`, `original.ext.002`, ... starting
from part number `n` (the loop starts at `part_num = 1`). -/
def nameChunks (fileName : String) (n : Nat) : List (List Nat) → List Chunk
  | [] => []
  | c :: cs => ⟨fileName ++ "." ++ pad3 n, c⟩ :: nameChunks fileName (n + 1) cs

/-- Result of `split_file`: either the original file returned unchanged
(`return [filepath]`, no chunk files created) or the ordered chunk list. -/
inductive SplitResult where
  | original (name : String) (data : List Nat)
  | chunks (cs : List Chunk)
deriving DecidableEq, Repr

/-- `FileProcessor.split_file`, at byte granularity: `chunkSize` is the
byte chunk size (`chunk_size_mb * 1024 * 1024` in the source), `fileName`
is `filepath.name`, `fileData` the file's bytes.  If the file size is at
most the chunk size the original file is returned as is; otherwise the
read loop writes each block to `{name}.{part:03d}` with part numbers
counting up from 1. -/
def split_file (fileName : String) (fileData : List Nat) (chunkSize : Nat) :
    SplitResult :=
  if fileData.length ≤ chunkSize then .original fileName fileData
  else .chunks (nameChunks fileName 1 (readChunks chunkSize fileData))

/-- The bytes of the split result, concatenated in listed order. -/
def SplitResult.contents : SplitResult → List Nat
  | .original _ d => d
  | .chunks cs => (cs.map Chunk.data).flatten

theorem readChunks_flatten (chunkSize : Nat) (hc : 0 < chunkSize) :
    ∀ data : List Nat, (readChunks chunkSize data).flatten = data := by
  intro data
  induction data using readChunks.induct chunkSize with
  | case1 data h =>
    rcases h with h | h
    · omega
    · subst h; rw [readChunks]; simp
  | case2 data h ih =>
    rw [readChunks, dif_neg h]
    simp only [List.flatten_cons, ih]
    exact List.take_append_drop _ _

theorem nameChunks_data (fileName : String) :
    ∀ (n : Nat) (cs : List (List Nat)),
      (nameChunks fileName n cs).map Chunk.data = cs := by
  intro n cs
  induction cs generalizing n with
  | nil => rfl
  | cons c cs ih => simp [nameChunks, ih]

theorem readChunks_nil (chunkSize : Nat) : readChunks chunkSize [] = [] := by
  rw [readChunks]; simp

theorem readChunks_unfold (chunkSize : Nat) (data : List Nat)
    (hc : chunkSize ≠ 0) (hd : data ≠ []) :
    readChunks chunkSize data =
      data.take chunkSize :: readChunks chunkSize (data.drop chunkSize) := by
  rw [readChunks]
  exact dif_neg (by simp [hc, hd])

/-- C1: for every file and every chunk size C > 0, the chunks returned by
`split_file`, concatenated in listed order, reproduce the file
byte-for-byte; and whenever the file size is at most C, the result is the
original file itself (no chunk files are created). -/
theorem C1_split_roundtrip_and_identity (fileName : String) (fileData : List Nat)
    (chunkSize : Nat) (hC : 0 < chunkSize) :
    (split_file fileName fileData chunkSize).contents = fileData ∧
    (fileData.length ≤ chunkSize →
      split_file fileName fileData chunkSize = .original fileName fileData) := by
  constructor
  · rw [split_file]
    split
    · rfl
    · simp [SplitResult.contents, nameChunks_data,
        readChunks_flatten chunkSize hC fileData]
  · intro h
    simp [split_file, h]

/-- Witness for C1 at a concrete input: a 5-byte file split at chunk size 2. -/
theorem C1_split_roundtrip_and_identity_witness :
    0 < 2 ∧
    ((split_file "a.bin" [10, 11, 12, 13, 14] 2).contents = [10, 11, 12, 13, 14] ∧
      ([10, 11, 12, 13, 14].length ≤ 2 →
        split_file "a.bin" [10, 11, 12, 13, 14] 2 = .original "a.bin" [10, 11, 12, 13, 14])) :=
  ⟨by decide, C1_split_roundtrip_and_identity "a.bin" [10, 11, 12, 13, 14] 2 (by decide)⟩

/-- C8: splitting a 350-byte file at chunk size 100 yields exactly 4 chunks
of sizes [100, 100, 100, 50] in order, named by appending the zero-padded
3-digit suffixes .001, .002, .003, .004 to the file's name; every chunk but
the last has exactly the chunk size. -/
theorem C8_split_350_at_100 :
    split_file "file.bin" (List.replicate 350 0) 100 =
      .chunks
        [⟨"file.bin.001", List.replicate 100 0⟩,
         ⟨"file.bin.002", List.replicate 100 0⟩,
         ⟨"file.bin.003", List.replicate 100 0⟩,
         ⟨"file.bin.004", List.replicate 50 0⟩] ∧
    ([⟨"file.bin.001", List.replicate 100 0⟩,
      ⟨"file.bin.002", List.replicate 100 0⟩,
      ⟨"file.bin.003", List.replicate 100 0⟩,
      ⟨"file.bin.004", List.replicate 50 0⟩] : List Chunk).map
        (fun c => c.data.length) = [100, 100, 100, 50] := by
  constructor
  · have h1 : readChunks 100 (List.replicate 350 (0 : Nat)) =
        [List.replicate 100 0, List.replicate 100 0,
         List.replicate 100 0, List.replicate 50 0] := by
      rw [readChunks_unfold 100 _ (by decide)
          (List.length_pos.mp (by rw [List.length_replicate]; norm_num)),
        List.take_replicate, List.drop_replicate]
      norm_num
      rw [readChunks_unfold 100 _ (by decide)
          (List.length_pos.mp (by rw [List.length_replicate]; norm_num)),
        List.take_replicate, List.drop_replicate]
      norm_num
      rw [readChunks_unfold 100 _ (by decide)
          (List.length_pos.mp (by rw [List.length_replicate]; norm_num)),
        List.take_replicate, List.drop_replicate]
      norm_num
      rw [readChunks_unfold 100 _ (by decide)
          (List.length_pos.mp (by rw [List.length_replicate]; norm_num)),
        List.take_replicate, List.drop_replicate]
      norm_num
      exact readChunks_nil 100
    rw [split_file,
      if_neg (by rw [List.length_replicate]; norm_num), h1]
    simp [nameChunks, pad3]
    refine ⟨by decide, by decide, by decide, by decide⟩
  · simp

/-! ## ToolLocator: NyuuDownloader.find_7z_executable (lines 66-93) and
FileProcessor.find_par2_executable (lines 386-412)

The locators run in an environment we make explicit: which candidate paths
exist on disk, whether a short-timeout invocation of each candidate would
succeed, and the platform.  The `...Invocable` fields record whether the
candidate could actually be invoked; the source only ever consults them
for the bare-name PATH candidates (`subprocess.run([...], timeout=2)`,
where `FileNotFoundError` and `TimeoutExpired` are caught and skip the
candidate). -/

/-- Environment for `find_7z_executable`. -/
structure Loc7zEnv where
  /-- `self.local_7z_path.exists()` -/
  localExists : Bool
  /-- would invoking the cached local copy succeed (never consulted) -/
  localInvocable : Bool
  /-- `subprocess.run(['7z', '--help'], timeout=2)` returns without
  `FileNotFoundError` or `TimeoutExpired` -/
  bareRunLaunches : Bool
  /-- `sys.platform == 'win32'` -/
  win32 : Bool
  /-- `os.path.exists` of the first Program Files path -/
  prog1Exists : Bool
  /-- would invoking the first Program Files path succeed (never consulted) -/
  prog1Invocable : Bool
  /-- `os.path.exists` of the second Program Files path -/
  prog2Exists : Bool
  /-- would invoking the second Program Files path succeed (never consulted) -/
  prog2Invocable : Bool
deriving DecidableEq, Repr

def local7zPath : String := "nyuu_binaries/7zr.exe"
def sevenZipProg1 : String := "C:\\Program Files\\7-Zip\\7z.exe"
def sevenZipProg2 : String := "C:\\Program Files (x86)\\7-Zip\\7z.exe"

/-- `NyuuDownloader.find_7z_executable`: cached local copy by existence,
then the bare name through PATH verified by a 2-second `--help` run, then
the two well-known Windows installation paths by existence. -/
def find_7z_executable (env : Loc7zEnv) : Option String :=
  if env.localExists then some local7zPath
  else if env.bareRunLaunches then some "7z"
  else if env.win32 then
    if env.prog1Exists then some sevenZipProg1
    else if env.prog2Exists then some sevenZipProg2
    else none
  else none

/-- Environment for `find_par2_executable`. -/
structure LocPar2Env where
  /-- `self.local_par2_path.exists()` -/
  localExists : Bool
  /-- would invoking the cached local copy succeed (never consulted) -/
  localInvocable : Bool
  /-- `subprocess.run(['par2', '-h'], timeout=2)` launches -/
  par2Launches : Bool
  /-- `subprocess.run(['par2create', '-h'], timeout=2)` launches -/
  par2createLaunches : Bool
  /-- `subprocess.run(['par2.exe', '-h'], timeout=2)` launches -/
  par2exeLaunches : Bool
  /-- `sys.platform == 'win32'` -/
  win32 : Bool
  /-- `os.path.exists` of the first Program Files path -/
  prog1Exists : Bool
  /-- would invoking the first Program Files path succeed (never consulted) -/
  prog1Invocable : Bool
  /-- `os.path.exists` of the second Program Files path -/
  prog2Exists : Bool
deriving DecidableEq, Repr

def localPar2Path : String := "processed_files/par2cmdline/par2.exe"
def par2Prog1 : String := "C:\\Program Files\\par2cmdline\\par2.exe"
def par2Prog2 : String := "C:\\Program Files (x86)\\par2cmdline\\par2.exe"

/-- `FileProcessor.find_par2_executable`: cached local copy by existence,
then `par2`, `par2create`, `par2.exe` through PATH each verified by a
2-second `-h` run, then the two well-known Windows installation paths by
existence. -/
def find_par2_executable (env : LocPar2Env) : Option String :=
  if env.localExists then some localPar2Path
  else if env.par2Launches then some "par2"
  else if env.par2createLaunches then some "par2create"
  else if env.par2exeLaunches then some "par2.exe"
  else if env.win32 then
    if env.prog1Exists then some par2Prog1
    else if env.prog2Exists then some par2Prog2
    else none
  else none

/-- C2 counterexample: the cached local copy exists on disk but cannot be
invoked (`localInvocable = false`), yet both locators return it; likewise a
well-known installation path that exists but is not invocable is returned.
A path that merely exists is returned, not skipped, so the locator reports
a located tool without having verified it is invocable. -/
theorem C2_locator_counterexample :
    find_7z_executable
      ⟨true, false, false, false, false, false, false, false⟩ = some local7zPath ∧
    find_par2_executable
      ⟨true, false, false, false, false, false, false, false, false⟩ = some localPar2Path ∧
    find_7z_executable
      ⟨false, false, false, true, true, false, false, false⟩ = some sevenZipProg1 := by
  refine ⟨rfl, rfl, rfl⟩

/-- C2 amended: only the bare-name PATH candidates are verified by a
short-timeout invocation before being returned; the cached local copy is
returned whenever it exists on disk, and the well-known installation paths
are likewise returned on existence alone, without invocation
verification. -/
theorem C2_locator_amended (e7 : Loc7zEnv) (ep : LocPar2Env) :
    (e7.localExists = true → find_7z_executable e7 = some local7zPath) ∧
    (find_7z_executable e7 = some "7z" → e7.bareRunLaunches = true) ∧
    (e7.localExists = false → e7.bareRunLaunches = false → e7.win32 = true →
      e7.prog1Exists = true → find_7z_executable e7 = some sevenZipProg1) ∧
    (ep.localExists = true → find_par2_executable ep = some localPar2Path) ∧
    (find_par2_executable ep = some "par2" → ep.par2Launches = true) ∧
    (find_par2_executable ep = some "par2create" → ep.par2createLaunches = true) ∧
    (find_par2_executable ep = some "par2.exe" → ep.par2exeLaunches = true) := by
  refine ⟨?_, ?_, ?_, ?_, ?_, ?_, ?_⟩
  · intro h; simp [find_7z_executable, h]
  · intro h
    unfold find_7z_executable at h
    split_ifs at h with h1 h2 h3 h4 <;>
      first
        | assumption
        | exact absurd (Option.some.inj h) (by decide)
        | exact absurd h (by simp)
  · intro h1 h2 h3 h4
    simp [find_7z_executable, h1, h2, h3, h4]
  · intro h; simp [find_par2_executable, h]
  · intro h
    unfold find_par2_executable at h
    split_ifs at h <;>
      first
        | assumption
        | exact absurd (Option.some.inj h) (by decide)
        | exact absurd h (by simp)
  · intro h
    unfold find_par2_executable at h
    split_ifs at h <;>
      first
        | assumption
        | exact absurd (Option.some.inj h) (by decide)
        | exact absurd h (by simp)
  · intro h
    unfold find_par2_executable at h
    split_ifs at h <;>
      first
        | assumption
        | exact absurd (Option.some.inj h) (by decide)
        | exact absurd h (by simp)

/-- Witness for the amended C2 theorem: a concrete environment where the
cached 7-Zip copy exists and is returned, and one where `par2` resolves
through PATH only because its invocation launched. -/
theorem C2_locator_amended_witness :
    find_7z_executable
      ⟨true, true, false, false, false, false, false, false⟩ = some local7zPath ∧
    find_par2_executable
      ⟨true, true, false, false, false, false, false, false, false⟩ = some localPar2Path :=
  ⟨(C2_locator_amended ⟨true, true, false, false, false, false, false, false⟩
      ⟨true, true, false, false, false, false, false, false, false⟩).1 rfl,
    (C2_locator_amended ⟨true, true, false, false, false, false, false, false⟩
      ⟨true, true, false, false, false, false, false, false, false⟩).2.2.2.1 rfl⟩

/-! ## AssetResolver: NyuuDownloader.get_asset_for_os (lines 104-123) -/

/-- One release asset of the GitHub release descriptor. -/
structure ReleaseAsset where
  name : String
  browser_download_url : String
deriving DecidableEq, Repr

/-- The fixed `asset_map` table of `get_asset_for_os`. -/
def asset_map (os_type : String) : Option String :=
  if os_type = "Linux x64" then some "linux-amd64"
  else if os_type = "Linux ARM64" then some "linux-aarch64"
  else if os_type = "macOS x64" then some "macos-x64"
  else if os_type = "Windows 32-bit" then some "win32"
  else none

/-- `NyuuDownloader.get_asset_for_os`: looks the selector up in the fixed
table (raising `Unknown OS type: ...` when absent), then returns the
download URL and name of the first asset whose name contains the selector's
token, raising `No asset found for ...` when none does.  Pure: a Lean
function of the descriptor and selector, so determinism and absence of
side effects hold by construction. -/
def get_asset_for_os (assets : List ReleaseAsset) (os_type : String) :
    Except String (String × String) :=
  match asset_map os_type with
  | none => .error ("Unknown OS type: " ++ os_type)
  | some tok =>
    match assets.find? (fun a => strIn tok a.name) with
    | some a => .ok (a.browser_download_url, a.name)
    | none => .error ("No asset found for " ++ os_type)

/-- C7: the resolver returns the first asset whose name contains the
selector's registered substring token; it fails with the unknown-selector
error when the selector is not registered, and with the asset-not-found
error when it is registered but no asset name contains its token.  (The
resolver is a pure function, so identical inputs give identical results
with no side effects.) -/
theorem C7_asset_resolver (assets : List ReleaseAsset) (os_type : String) :
    (asset_map os_type = none →
      get_asset_for_os assets os_type = .error ("Unknown OS type: " ++ os_type)) ∧
    (∀ tok, asset_map os_type = some tok →
      ((∀ a ∈ assets, strIn tok a.name = false) →
        get_asset_for_os assets os_type = .error ("No asset found for " ++ os_type)) ∧
      (∀ front a back, assets = front ++ a :: back → strIn tok a.name = true →
        (∀ b ∈ front, strIn tok b.name = false) →
        get_asset_for_os assets os_type = .ok (a.browser_download_url, a.name))) := by
  constructor
  · intro h
    simp [get_asset_for_os, h]
  · intro tok htok
    constructor
    · intro hnone
      have hfind : assets.find? (fun a => strIn tok a.name) = none := by
        rw [List.find?_eq_none]
        intro a ha
        simp [hnone a ha]
      simp [get_asset_for_os, htok, hfind]
    · intro front a back hsplit hmatch hfront
      have hfind : assets.find? (fun a => strIn tok a.name) = some a := by
        subst hsplit
        induction front with
        | nil => simp [List.find?, hmatch]
        | cons b front ih =>
          have hb : strIn tok b.name = false := hfront b (by simp)
          simp only [List.cons_append, List.find?, hb]
          exact ih fun x hx => hfront x (by simp [hx])
      simp [get_asset_for_os, htok, hfind]

/-- Witness for C7: the first matching asset of a concrete two-asset
descriptor is returned for the `Linux x64` selector, and an unregistered
selector fails with the unknown-selector error. -/
theorem C7_asset_resolver_witness :
    get_asset_for_os
      [⟨"nyuu-v0.4.2-win32.7z", "u1"⟩, ⟨"nyuu-v0.4.2-linux-amd64.tar.xz", "u2"⟩,
       ⟨"nyuu-v0.4.2-linux-amd64.zip", "u3"⟩] "Linux x64" =
      .ok ("u2", "nyuu-v0.4.2-linux-amd64.tar.xz") ∧
    get_asset_for_os [⟨"nyuu-v0.4.2-win32.7z", "u1"⟩] "FreeBSD" =
      .error ("Unknown OS type: " ++ "FreeBSD") :=
  ⟨((C7_asset_resolver _ "Linux x64").2 "linux-amd64" rfl).2
      [⟨"nyuu-v0.4.2-win32.7z", "u1"⟩] ⟨"nyuu-v0.4.2-linux-amd64.tar.xz", "u2"⟩
      [⟨"nyuu-v0.4.2-linux-amd64.zip", "u3"⟩] rfl (by decide) (by decide),
    (C7_asset_resolver _ "FreeBSD").1 rfl⟩

/-! ## NyuuGUI.build_command (lines 1086-1181), view_command (1183-1196),
start_upload (1254-1336)

A `Config` is the snapshot of the GUI variables that `build_command`
reads.  String fields are the tkinter entry contents (Python truthiness of
a string is non-emptiness); `nyuuPathOk` is the combined check
`nyuu_path and os.path.exists(nyuu_path)`. -/

structure Config where
  nyuuPath : String
  /-- `nyuu_path` is non-empty and `os.path.exists(nyuu_path)` holds -/
  nyuuPathOk : Bool
  host : String
  port : String
  ssl : Bool
  ignoreCert : Bool
  user : String
  password : String
  connections : String
  articleSize : String
  comment : String
  fromAddr : String
  groups : String
  checkEnabled : Bool
  checkConnections : String
  checkTries : String
  checkDelay : String
  checkRetryDelay : String
  checkPostTries : String
  nzbOutput : String
  nzbOverwrite : Bool
  nzbTitle : String
  nzbCategory : String
  nzbTag : String
  nzbPassword : String
  skipErrors : Bool
  quiet : Bool
  recursive : Bool
  customArgs : String
  files : List String
  enableSplit : Bool
  enablePar2 : Bool
deriving DecidableEq, Repr

/-- Python `str.split()` with no argument: split on runs of whitespace,
discarding empty pieces. -/
def pySplitWs (s : String) : List String :=
  (s.split fun c => c == ' ' || c == '\t' || c == '\n' || c == '\r').filter
    (fun p => p ≠ "")

/-- The argument vector `build_command` assembles when all four validations
pass: the fixed option-to-flag mapping of lines 1092-1179, each optional
group appended when its GUI field is truthy (non-empty string or checked
box), in source order. -/
def cmdList (cfg : Config) : List String :=
  [cfg.nyuuPath]
    ++ ["-h", cfg.host]
    ++ (if cfg.port ≠ "" then ["-P", cfg.port] else [])
    ++ (if cfg.ssl then ["-S"] else [])
    ++ (if cfg.ignoreCert then ["--ignore-cert"] else [])
    ++ (if cfg.user ≠ "" then ["-u", cfg.user] else [])
    ++ (if cfg.password ≠ "" then ["-p", cfg.password] else [])
    ++ (if cfg.connections ≠ "" then ["-n", cfg.connections] else [])
    ++ (if cfg.articleSize ≠ "" then ["-a", cfg.articleSize] else [])
    ++ (if cfg.comment ≠ "" then ["-t", cfg.comment] else [])
    ++ (if cfg.fromAddr ≠ "" then ["-f", cfg.fromAddr] else [])
    ++ ["-g", cfg.groups]
    ++ (if cfg.checkEnabled then
          ["--check-connections=" ++ cfg.checkConnections,
           "--check-tries", cfg.checkTries,
           "--check-delay", cfg.checkDelay,
           "--check-retry-delay", cfg.checkRetryDelay,
           "--check-post-tries", cfg.checkPostTries] else [])
    ++ (if cfg.nzbOutput ≠ "" then ["-o", cfg.nzbOutput] else [])
    ++ (if cfg.nzbOverwrite then ["-O"] else [])
    ++ (if cfg.nzbTitle ≠ "" then ["--nzb-title", cfg.nzbTitle] else [])
    ++ (if cfg.nzbCategory ≠ "" then ["--nzb-category", cfg.nzbCategory] else [])
    ++ (if cfg.nzbTag ≠ "" then ["--nzb-tag", cfg.nzbTag] else [])
    ++ (if cfg.nzbPassword ≠ "" then ["--nzb-password", cfg.nzbPassword] else [])
    ++ (if cfg.skipErrors then ["-e", "all"] else [])
    ++ (if cfg.quiet then ["-q"] else [])
    ++ (if cfg.recursive then ["-r", "keep"] else [])
    ++ (if cfg.customArgs ≠ "" then pySplitWs cfg.customArgs else [])
    ++ cfg.files

/-- `NyuuGUI.build_command`: raises `ValueError` with the quoted message at
the first failing validation — executable path, then host, then newsgroups,
then files, in source order — and otherwise returns the assembled argument
vector.  (In the source the pure list appends are interleaved between the
host, newsgroups and files checks; since appending cannot fail, hoisting
the checks in front of `cmdList` preserves both the failure order and the
returned value.) -/
def build_command (cfg : Config) : Except String (List String) :=
  if cfg.nyuuPathOk = false then
    .error "Nyuu executable not found. Please download or select a valid Nyuu executable."
  else if cfg.host = "" then .error "Server host is required"
  else if cfg.groups = "" then .error "At least one newsgroup is required"
  else if cfg.files = [] then .error "No files selected for upload"
  else .ok (cmdList cfg)

/-- Index of the first occurrence of `x` (Python `list.index`). -/
def firstIdx : List String → String → Option Nat
  | [], _ => none
  | a :: t, x => if a = x then some 0 else (firstIdx t x).map (· + 1)

/-- `NyuuGUI.view_command`: builds the command (a validation failure shows
the error dialog instead, modelled as `none`), then if `"-p"` occurs,
overwrites the entry after its first occurrence with `"****"` before
display.  The out-of-range write (`"-p"` as last element) would be an
uncaught `IndexError`, modelled as `none`. -/
def view_command_display (cfg : Config) : Option (List String) :=
  match build_command cfg with
  | .error _ => none
  | .ok cmd =>
    match firstIdx cmd "-p" with
    | none => some cmd
    | some i =>
      if i + 1 < cmd.length then some (cmd.set (i + 1) "****")
      else none

/-- Removes the first occurrence of `x` from `l`, if any
(`if x in cmd: cmd.pop(cmd.index(x))`). -/
def removeFirst : List String → String → List String
  | [], _ => []
  | a :: t, x => if a = x then t else a :: removeFirst t x

/-- The file-argument rewrite of `start_upload` lines 1277-1284: each
original file's first occurrence is removed from the command, then the
processed files appended. -/
def replaceFiles (cmd : List String) (origFiles newFiles : List String) :
    List String :=
  (origFiles.foldl removeFirst cmd) ++ newFiles

/-- `NyuuGUI.start_upload`, up to the point of spawning the poster process:
returns the argument vector handed to `subprocess.Popen`, or `none` when no
process is spawned (preparation failed, or `build_command` raised
`ValueError`).  `prep` is the outcome of `process_files_before_upload`,
consulted only when splitting or PAR2 is enabled. -/
def start_upload (cfg : Config) (prep : Except String (List String)) :
    Option (List String) :=
  if cfg.enableSplit || cfg.enablePar2 then
    match prep with
    | .error _ => none
    | .ok pf =>
      match build_command cfg with
      | .error _ => none
      | .ok cmd =>
        if pf = [] then some cmd
        else some (replaceFiles cmd cfg.files pf)
  else
    match build_command cfg with
    | .error _ => none
    | .ok cmd => some cmd

theorem build_command_fails_of_missing (cfg : Config)
    (h : cfg.host = "" ∨ cfg.groups = "") :
    ∃ e, build_command cfg = .error e := by
  unfold build_command
  split_ifs with h1 h2 h3 h4
  · exact ⟨_, rfl⟩
  · exact ⟨_, rfl⟩
  · exact ⟨_, rfl⟩
  · exact ⟨_, rfl⟩
  · rcases h with h | h
    · exact absurd h h2
    · exact absurd h h3

/-- A fully valid baseline configuration used for concrete instantiations. -/
def baseCfg : Config :=
  { nyuuPath := "./nyuu"
    nyuuPathOk := true
    host := "news.example.com"
    port := "119"
    ssl := false
    ignoreCert := false
    user := ""
    password := ""
    connections := "3"
    articleSize := "700K"
    comment := ""
    fromAddr := ""
    groups := "alt.binaries.test"
    checkEnabled := false
    checkConnections := "1"
    checkTries := "2"
    checkDelay := "5s"
    checkRetryDelay := "30s"
    checkPostTries := "1"
    nzbOutput := ""
    nzbOverwrite := false
    nzbTitle := ""
    nzbCategory := ""
    nzbTag := ""
    nzbPassword := ""
    skipErrors := false
    quiet := false
    recursive := false
    customArgs := ""
    files := ["file.bin"]
    enableSplit := false
    enablePar2 := false }

/-- The configuration refuting C5 as stated: host empty, one newsgroup set,
but the poster executable path invalid. -/
def cfgC5 : Config := { baseCfg with nyuuPathOk := false, host := "" }

/-- C5 counterexample: with an empty host, a non-empty newsgroup and an
invalid poster executable path, `build_command` fails with the executable
message, which does not cite the missing host field (the executable check
at line 1089 precedes the host check at line 1095). -/
theorem C5_validation_counterexample :
    cfgC5.host = "" ∧ cfgC5.groups ≠ "" ∧
    build_command cfgC5 =
      .error "Nyuu executable not found. Please download or select a valid Nyuu executable." ∧
    strIn "host"
      "Nyuu executable not found. Please download or select a valid Nyuu executable." = false := by
  refine ⟨rfl, by decide, rfl, by decide⟩

/-- C5 amended: whenever the host or the newsgroups field is empty, no
poster process is spawned; and provided the configured poster executable
path is valid, an empty host fails with "Server host is required" (citing
the host) and an empty newsgroups field with a non-empty host fails with
"At least one newsgroup is required". -/
theorem C5_validation_amended (cfg : Config) (prep : Except String (List String)) :
    ((cfg.host = "" ∨ cfg.groups = "") → start_upload cfg prep = none) ∧
    (cfg.nyuuPathOk = true → cfg.host = "" →
      build_command cfg = .error "Server host is required" ∧
      strIn "host" "Server host is required" = true) ∧
    (cfg.nyuuPathOk = true → cfg.host ≠ "" → cfg.groups = "" →
      build_command cfg = .error "At least one newsgroup is required" ∧
      strIn "newsgroup" "At least one newsgroup is required" = true) := by
  refine ⟨?_, ?_, ?_⟩
  · intro h
    obtain ⟨e, he⟩ := build_command_fails_of_missing cfg h
    unfold start_upload
    cases hsp : (cfg.enableSplit || cfg.enablePar2) <;> simp only [Bool.false_eq_true,
      if_pos, if_neg, reduceIte, he] <;> cases prep <;> simp [he]
  · intro h1 h2
    refine ⟨?_, by decide⟩
    unfold build_command
    rw [if_neg (by simp [h1]), if_pos h2]
  · intro h1 h2 h3
    refine ⟨?_, by decide⟩
    unfold build_command
    rw [if_neg (by simp [h1]), if_neg h2, if_pos h3]

/-- Witness for the amended C5 theorem: the baseline configuration with the
host emptied fails with the host message and spawns nothing. -/
theorem C5_validation_amended_witness :
    start_upload { baseCfg with host := "" } (.ok []) = none ∧
    (build_command { baseCfg with host := "" } = .error "Server host is required" ∧
      strIn "host" "Server host is required" = true) :=
  ⟨(C5_validation_amended { baseCfg with host := "" } (.ok [])).1 (Or.inl rfl),
    (C5_validation_amended { baseCfg with host := "" } (.ok [])).2.1 rfl rfl⟩

theorem firstIdx_append_self (x : String) :
    ∀ (A B : List String), ∃ i, firstIdx (A ++ x :: B) x = some i ∧ i ≤ A.length := by
  intro A B
  induction A with
  | nil => exact ⟨0, by simp [firstIdx], Nat.zero_le _⟩
  | cons a A ih =>
    by_cases ha : a = x
    · exact ⟨0, by simp [firstIdx, ha], Nat.zero_le _⟩
    · obtain ⟨i, hi, hile⟩ := ih
      refine ⟨i + 1, ?_, by simpa using Nat.succ_le_succ hile⟩
      simp [firstIdx, ha, hi]

theorem build_command_ok_shape (cfg : Config) (cmd : List String)
    (hok : build_command cfg = .ok cmd) (hp : cfg.password ≠ "") :
    ∃ A B, cmd = A ++ "-p" :: cfg.password :: B := by
  have hcmd : cmd = cmdList cfg := by
    unfold build_command at hok
    split_ifs at hok <;> simp_all
  refine ⟨[cfg.nyuuPath] ++ ["-h", cfg.host]
    ++ (if cfg.port ≠ "" then ["-P", cfg.port] else [])
    ++ (if cfg.ssl then ["-S"] else [])
    ++ (if cfg.ignoreCert then ["--ignore-cert"] else [])
    ++ (if cfg.user ≠ "" then ["-u", cfg.user] else []),
    (if cfg.connections ≠ "" then ["-n", cfg.connections] else [])
    ++ (if cfg.articleSize ≠ "" then ["-a", cfg.articleSize] else [])
    ++ (if cfg.comment ≠ "" then ["-t", cfg.comment] else [])
    ++ (if cfg.fromAddr ≠ "" then ["-f", cfg.fromAddr] else [])
    ++ ["-g", cfg.groups]
    ++ (if cfg.checkEnabled then
          ["--check-connections=" ++ cfg.checkConnections,
           "--check-tries", cfg.checkTries,
           "--check-delay", cfg.checkDelay,
           "--check-retry-delay", cfg.checkRetryDelay,
           "--check-post-tries", cfg.checkPostTries] else [])
    ++ (if cfg.nzbOutput ≠ "" then ["-o", cfg.nzbOutput] else [])
    ++ (if cfg.nzbOverwrite then ["-O"] else [])
    ++ (if cfg.nzbTitle ≠ "" then ["--nzb-title", cfg.nzbTitle] else [])
    ++ (if cfg.nzbCategory ≠ "" then ["--nzb-category", cfg.nzbCategory] else [])
    ++ (if cfg.nzbTag ≠ "" then ["--nzb-tag", cfg.nzbTag] else [])
    ++ (if cfg.nzbPassword ≠ "" then ["--nzb-password", cfg.nzbPassword] else [])
    ++ (if cfg.skipErrors then ["-e", "all"] else [])
    ++ (if cfg.quiet then ["-q"] else [])
    ++ (if cfg.recursive then ["-r", "keep"] else [])
    ++ (if cfg.customArgs ≠ "" then pySplitWs cfg.customArgs else [])
    ++ cfg.files, ?_⟩
  rw [hcmd]
  simp [cmdList, hp, List.append_assoc]

/-- C10: whenever a server password is set (so the built command contains
`-p` followed by the password), the displayed command replaces the argument
immediately following the first `-p` with `****`, so the password value
does not appear at that position of the displayed command. -/
theorem C10_view_masks_password (cfg : Config) (cmd : List String)
    (hok : build_command cfg = .ok cmd) (hp : cfg.password ≠ "") :
    ∃ i, firstIdx cmd "-p" = some i ∧ i + 1 < cmd.length ∧
      view_command_display cfg = some (cmd.set (i + 1) "****") ∧
      (cmd.set (i + 1) "****")[i + 1]? = some "****" ∧
      (cfg.password ≠ "****" →
        ¬ (cmd.set (i + 1) "****")[i + 1]? = some cfg.password) := by
  obtain ⟨A, B, hshape⟩ := build_command_ok_shape cfg cmd hok hp
  obtain ⟨i, hfi, hile⟩ := firstIdx_append_self "-p" A (cfg.password :: B)
  rw [← hshape] at hfi
  have hlen : i + 1 < cmd.length := by
    rw [hshape]
    simp only [List.length_append, List.length_cons]
    omega
  refine ⟨i, hfi, hlen, ?_, ?_, ?_⟩
  · simp only [view_command_display, hok, hfi]
    rw [if_pos hlen]
  · exact List.getElem?_set_eq hlen
  · intro hne heq
    rw [List.getElem?_set_eq hlen] at heq
    exact hne (Option.some.inj heq).symm

/-- Witness for C10: the baseline configuration with password `hunter2`. -/
theorem C10_view_masks_password_witness :
    ∃ i, firstIdx (cmdList { baseCfg with password := "hunter2" }) "-p" = some i ∧
      i + 1 < (cmdList { baseCfg with password := "hunter2" }).length ∧
      view_command_display { baseCfg with password := "hunter2" } =
        some ((cmdList { baseCfg with password := "hunter2" }).set (i + 1) "****") ∧
      ((cmdList { baseCfg with password := "hunter2" }).set (i + 1) "****")[i + 1]? =
        some "****" ∧
      (({ baseCfg with password := "hunter2" } : Config).password ≠ "****" →
        ¬ ((cmdList { baseCfg with password := "hunter2" }).set (i + 1) "****")[i + 1]? =
          some ({ baseCfg with password := "hunter2" } : Config).password) :=
  C10_view_masks_password { baseCfg with password := "hunter2" }
    (cmdList { baseCfg with password := "hunter2" }) rfl (by decide)

/-! ## ArchiveExtractor: NyuuDownloader.extract_archive (lines 144-212)

The extraction dispatches on the archive's path attributes: the tar branch
when the suffix is `.xz` or the name contains `.tar`, the 7z fallback chain
when the suffix is `.7z`, and a silent fall-through otherwise.  `stem`,
`name` and `suffix` are the pathlib attributes of the archive path; the
filesystem and subprocess outcomes are an explicit environment, and the
operations performed are returned as an effect trace. -/

/-- Outcome of `download_7zip_standalone` as observed by its caller. -/
inductive DlOutcome where
  | ok
  | fail (err : String)
deriving DecidableEq, Repr

/-- Outcome of the system 7z invocation
(`subprocess.run([...], check=True, capture_output=True)`): either the
process ran and returned an exit code — `check=True` turns a nonzero code
into `CalledProcessError`, the only exception type the source catches at
line 197 — or `subprocess.run` itself raised some other exception, e.g.
`OSError`/`FileNotFoundError` when the located path exists on disk but
cannot be launched, which no handler in `extract_archive` catches. -/
inductive RunOutcome where
  | exit (code : Nat) (stderr : String)
  | raiseOther (err : String)
deriving DecidableEq, Repr

/-- Environment for one `extract_archive` call. -/
structure ExtractEnv where
  /-- `py7zr.SevenZipFile(...).extractall` succeeds -/
  py7zrOk : Bool
  /-- `str(e)` of the py7zr exception when it fails -/
  py7zrErr : String
  /-- `tarfile.open(...).extractall` succeeds -/
  tarOk : Bool
  /-- `str` of the tar exception when it fails -/
  tarErr : String
  /-- locator environment consulted by `find_7z_executable` -/
  loc : Loc7zEnv
  /-- outcome of the automatic 7-Zip download -/
  dl : DlOutcome
  /-- how the system 7z invocation ends when it is attempted -/
  run : RunOutcome
deriving DecidableEq, Repr

/-- Filesystem/process operations performed by `extract_archive`. -/
inductive Effect where
  | mkdirIfAbsent (dir : String)
  | tarExtract (dir : String)
  | py7zrExtract (dir : String)
  | download7zip
  | run7z (exe dir : String)
deriving DecidableEq, Repr

/-- Line 198-202: both py7zr and the system 7z command failed. -/
def bothFailMsg (pyErr stderr : String) : String :=
  "7z extraction failed with both py7zr and system 7z command. py7zr error: "
    ++ pyErr ++ (". 7z command error: " ++ stderr)

/-- Line 181-185: the automatic 7-Zip download failed. -/
def dlFailMsg (dErr pyErr : String) : String :=
  "Failed to download 7-Zip automatically: "
    ++ dErr ++ ("\nPlease manually install 7-Zip from https://www.7-zip.org/\n\nOriginal extraction error: "
    ++ pyErr ++ "")

/-- Line 205-210: no system 7z could be found or downloaded. -/
def noToolMsg (pyErr : String) : String :=
  "7z extraction failed with py7zr (unsupported BCJ2 compression filter). Could not find or download 7-Zip.\nPlease manually install 7-Zip from https://www.7-zip.org/\n\nTechnical details - py7zr error: "
    ++ pyErr ++ ""

/-- `NyuuDownloader.extract_archive`.  Returns the trace of operations
performed and either the extraction directory or the raised error message.
After a successful automatic download the locator is re-run against an
environment in which the cached local copy exists. -/
def extract_archive (stem name suffix : String) (env : ExtractEnv) :
    List Effect × Except String String :=
  let dir := "nyuu_binaries/" ++ stem
  let eff0 := [Effect.mkdirIfAbsent dir]
  if suffix = ".xz" || strIn ".tar" name then
    if env.tarOk then (eff0 ++ [.tarExtract dir], .ok dir)
    else (eff0 ++ [.tarExtract dir], .error env.tarErr)
  else if suffix = ".7z" then
    let eff1 := eff0 ++ [.py7zrExtract dir]
    if env.py7zrOk then (eff1, .ok dir)
    else
      match find_7z_executable env.loc with
      | some p =>
        match env.run with
        | .raiseOther e => (eff1 ++ [.run7z p dir], .error e)
        | .exit code stderr =>
          if code = 0 then (eff1 ++ [.run7z p dir], .ok dir)
          else (eff1 ++ [.run7z p dir], .error (bothFailMsg env.py7zrErr stderr))
      | none =>
        if env.loc.win32 then
          match env.dl with
          | .fail dErr =>
            (eff1 ++ [.download7zip], .error (dlFailMsg dErr env.py7zrErr))
          | .ok =>
            match find_7z_executable { env.loc with localExists := true } with
            | some p =>
              match env.run with
              | .raiseOther e => (eff1 ++ [.download7zip, .run7z p dir], .error e)
              | .exit code stderr =>
                if code = 0 then
                  (eff1 ++ [.download7zip, .run7z p dir], .ok dir)
                else
                  (eff1 ++ [.download7zip, .run7z p dir],
                    .error (bothFailMsg env.py7zrErr stderr))
            | none => (eff1 ++ [.download7zip], .error (noToolMsg env.py7zrErr))
        else (eff1, .error (noToolMsg env.py7zrErr))
  else (eff0, .ok dir)

theorem strContains_of_parts (s pre post sub : String) (h : s = pre ++ sub ++ post) :
    StrContains s sub := ⟨pre, post, h⟩

/-- C3 counterexample: py7zr fails with `unsupported filter BCJ2`, the
locator returns the cached `7zr.exe` because it exists on disk, but
launching it raises `FileNotFoundError` — an exception the source catches
nowhere (line 197 catches only `CalledProcessError`) — so the raw launch
error propagates with no py7zr attribution: the native-library error is
dropped although a later strategy also failed. -/
theorem C3_extract_counterexample :
    (extract_archive "nyuu-v0-win32" "nyuu-v0-win32.7z" ".7z"
      { py7zrOk := false, py7zrErr := "unsupported filter BCJ2",
        tarOk := true, tarErr := ""
        loc := ⟨true, false, false, true, false, false, false, false⟩
        dl := .ok,
        run := .raiseOther
          "FileNotFoundError: [WinError 2] The system cannot find the file specified" }).2 =
      .error "FileNotFoundError: [WinError 2] The system cannot find the file specified" ∧
    ¬ StrContains
        "FileNotFoundError: [WinError 2] The system cannot find the file specified"
        "unsupported filter BCJ2" := by
  refine ⟨rfl, ?_⟩
  rintro ⟨p, q, heq⟩
  have hd : String.data
      "FileNotFoundError: [WinError 2] The system cannot find the file specified" =
      p.data ++ (String.data "unsupported filter BCJ2" ++ q.data) := by
    have h := congrArg String.data heq
    simpa [String.append_assoc] using h
  have hJ : ('J' : Char) ∈ String.data
      "FileNotFoundError: [WinError 2] The system cannot find the file specified" := by
    rw [hd]
    exact List.mem_append.mpr (Or.inr (List.mem_append.mpr (Or.inl (by decide))))
  exact absurd hJ (by decide)

/-- C3 amended: for a `.7z` archive on which py7zr fails, every failure
raised by a handler of `extract_archive` carries the py7zr error text with
attribution, together with the own error of the failing later strategy (the
stderr of the system tool on a nonzero exit, or the download error) — except
when the system-tool invocation itself raises an exception other than a
nonzero-exit `CalledProcessError` (e.g. a located path that cannot be
launched), in which case that exception propagates raw, without the py7zr
attribution. -/
theorem C3_extract_aggregates_errors_amended (stem name : String) (env : ExtractEnv)
    (hname : strIn ".tar" name = false) (hpy : env.py7zrOk = false) :
    (∀ e, env.run = .raiseOther e → (find_7z_executable env.loc).isSome = true →
      (extract_archive stem name ".7z" env).2 = .error e) ∧
    (∀ e, env.run = .raiseOther e → find_7z_executable env.loc = none →
      env.loc.win32 = true → env.dl = .ok →
      (extract_archive stem name ".7z" env).2 = .error e) ∧
    (∀ code stderr, env.run = .exit code stderr →
      ∀ msg, (extract_archive stem name ".7z" env).2 = .error msg →
        StrContains msg env.py7zrErr ∧
        ((find_7z_executable env.loc).isSome = true → StrContains msg stderr) ∧
        (find_7z_executable env.loc = none → env.loc.win32 = true →
          ∀ dErr, env.dl = .fail dErr → StrContains msg dErr) ∧
        (find_7z_executable env.loc = none → env.loc.win32 = true → env.dl = .ok →
          StrContains msg stderr)) := by
  refine ⟨?_, ?_, ?_⟩
  · intro e hrun hsome
    obtain ⟨p, hp⟩ := Option.isSome_iff_exists.mp hsome
    simp [extract_archive, hname, hpy, hp, hrun]
  · intro e hrun hfind hwin hdl
    simp [extract_archive, hname, hpy, hfind, hwin, hdl]
    simp [find_7z_executable, hrun]
  · intro code stderr hrun msg hmsg
    cases hfind : find_7z_executable env.loc with
    | some p =>
      by_cases hc : code = 0
      · simp [extract_archive, hname, hpy, hfind, hrun, hc] at hmsg
      · simp [extract_archive, hname, hpy, hfind, hrun, hc] at hmsg
        subst hmsg
        refine ⟨?_, fun _ => ?_, by simp [hfind], by simp [hfind]⟩
        · exact strContains_of_parts _
            "7z extraction failed with both py7zr and system 7z command. py7zr error: "
            (". 7z command error: " ++ stderr) _
            (by simp [bothFailMsg, String.append_assoc, String.append_empty])
        · exact strContains_of_parts _
            ("7z extraction failed with both py7zr and system 7z command. py7zr error: "
              ++ env.py7zrErr ++ ". 7z command error: ") "" _
            (by simp [bothFailMsg, String.append_assoc, String.append_empty])
    | none =>
      by_cases hwin : env.loc.win32 = true
      · cases hdl : env.dl with
        | fail dErr =>
          simp [extract_archive, hname, hpy, hfind, hwin, hdl] at hmsg
          subst hmsg
          refine ⟨?_, by simp, ?_, by simp [hdl]⟩
          · exact strContains_of_parts _
              ("Failed to download 7-Zip automatically: " ++ dErr
                ++ "\nPlease manually install 7-Zip from https://www.7-zip.org/\n\nOriginal extraction error: ")
              "" _
              (by simp [dlFailMsg, String.append_assoc, String.append_empty])
          · intro _ _ e he
            injection he with h
            subst h
            exact strContains_of_parts _ "Failed to download 7-Zip automatically: "
              ("\nPlease manually install 7-Zip from https://www.7-zip.org/\n\nOriginal extraction error: "
                ++ env.py7zrErr) _
              (by simp [dlFailMsg, String.append_assoc, String.append_empty])
        | ok =>
          by_cases hc : code = 0
          · simp [extract_archive, hname, hpy, hfind, hwin, hdl, hrun, hc] at hmsg
            simp [find_7z_executable] at hmsg
          · simp [extract_archive, hname, hpy, hfind, hwin, hdl, hrun, hc] at hmsg
            simp [find_7z_executable] at hmsg
            subst hmsg
            refine ⟨?_, by simp, by simp [hdl], fun _ _ _ => ?_⟩
            · exact strContains_of_parts _
                "7z extraction failed with both py7zr and system 7z command. py7zr error: "
                (". 7z command error: " ++ stderr) _
                (by simp [bothFailMsg, String.append_assoc, String.append_empty])
            · exact strContains_of_parts _
                ("7z extraction failed with both py7zr and system 7z command. py7zr error: "
                  ++ env.py7zrErr ++ ". 7z command error: ") "" _
                (by simp [bothFailMsg, String.append_assoc, String.append_empty])
      · simp [extract_archive, hname, hpy, hfind, hwin] at hmsg
        subst hmsg
        refine ⟨?_, by simp, by simp [hwin], by simp [hwin]⟩
        exact strContains_of_parts _
          "7z extraction failed with py7zr (unsupported BCJ2 compression filter). Could not find or download 7-Zip.\nPlease manually install 7-Zip from https://www.7-zip.org/\n\nTechnical details - py7zr error: "
          "" _
          (by simp [noToolMsg, String.append_assoc, String.append_empty])

/-- Witness for the amended C3 theorem: py7zr fails with `py-boom`, the
system tool is found through PATH and exits nonzero (a `CalledProcessError`)
with stderr `7z-boom`; the raised message contains both error texts. -/
theorem C3_extract_aggregates_errors_amended_witness :
    StrContains (bothFailMsg "py-boom" "7z-boom") "py-boom" ∧
    StrContains (bothFailMsg "py-boom" "7z-boom") "7z-boom" := by
  have h := (C3_extract_aggregates_errors_amended "nyuu-v0" "nyuu-v0.7z"
    { py7zrOk := false, py7zrErr := "py-boom", tarOk := true, tarErr := ""
      loc := ⟨false, false, true, false, false, false, false, false⟩
      dl := .ok, run := .exit 2 "7z-boom" }
    (by decide) rfl).2.2 2 "7z-boom" rfl (bothFailMsg "py-boom" "7z-boom") rfl
  exact ⟨h.1, h.2.1 rfl⟩

/-- C9: an archive whose name contains no `.tar` and whose suffix is
neither `.xz` nor `.7z` falls through every extraction branch: the target
directory derived from the archive's base name is created if absent and
returned, nothing is extracted, and no error is raised — a silent success
with a possibly empty directory. -/
theorem C9_unrecognized_archive_silent (stem name suffix : String) (env : ExtractEnv)
    (hname : strIn ".tar" name = false) (hxz : suffix ≠ ".xz") (h7z : suffix ≠ ".7z") :
    extract_archive stem name suffix env =
      ([.mkdirIfAbsent ("nyuu_binaries/" ++ stem)], .ok ("nyuu_binaries/" ++ stem)) := by
  unfold extract_archive
  rw [if_neg (by simp [hname, hxz]), if_neg h7z]

/-- Witness for C9: a `.zip` asset (the Windows release archive) is neither
tar nor 7z: its extraction returns the derived directory untouched. -/
theorem C9_unrecognized_archive_silent_witness :
    extract_archive "nyuu-v0-win32" "nyuu-v0-win32.zip" ".zip"
      { py7zrOk := false, py7zrErr := "", tarOk := true, tarErr := ""
        loc := ⟨false, false, false, false, false, false, false, false⟩
        dl := .ok, run := .exit 0 "" } =
      ([.mkdirIfAbsent ("nyuu_binaries/" ++ "nyuu-v0-win32")],
        .ok ("nyuu_binaries/" ++ "nyuu-v0-win32")) :=
  C9_unrecognized_archive_silent "nyuu-v0-win32" "nyuu-v0-win32.zip" ".zip" _
    (by decide) (by decide) (by decide)

/-! ## ToolProvisioner: NyuuDownloader.download_7zip_standalone (lines
34-64) and FileProcessor.download_par2_standalone (lines 327-384) -/

/-- Where the network fetch of a standalone tool can fail. -/
inductive FetchOutcome where
  | ok
  /-- `requests.get` or `raise_for_status` raises before the destination
  file is opened; nothing was written -/
  | failEarly (err : String)
  /-- the streaming write loop raises after the destination file was
  created, leaving a partial file on disk -/
  | failMidWrite (err : String)
deriving DecidableEq, Repr

/-- On-disk state around par2 provisioning. -/
structure Par2Fs where
  /-- `processed_files/par2cmdline.zip` exists -/
  zipPresent : Bool
  /-- the `processed_files/par2cmdline` directory exists -/
  dirPresent : Bool
  /-- `processed_files/par2cmdline/par2.exe` exists -/
  par2ExePresent : Bool
deriving DecidableEq, Repr

/-- Environment for one `download_par2_standalone` call. -/
structure Par2ProvEnv where
  fetch : FetchOutcome
  /-- `zipfile.ZipFile(...).extractall` succeeds -/
  extractOk : Bool
  /-- `str` of the extraction exception when it fails -/
  extractErr : String
  /-- the walk over the extracted tree finds a `par2.exe` to move into
  place -/
  walkFindsExe : Bool
deriving DecidableEq, Repr

/-- Result of one par2 provisioning run: final filesystem state, which
artifacts this run created or wrote into, and the outcome. -/
structure ProvRun where
  fs : Par2Fs
  createdZip : Bool
  createdDir : Bool
  result : Except String String
deriving Repr

/-- The except-handler of lines 378-384: unlink the zip if it exists, then
remove the whole `par2cmdline` directory tree if it exists (which also
removes `par2.exe` under it). -/
def par2Cleanup (s : Par2Fs) : Par2Fs :=
  let s1 := { s with zipPresent := false }
  if s1.dirPresent then { s1 with dirPresent := false, par2ExePresent := false }
  else s1

/-- `FileProcessor.download_par2_standalone` as a transition on the on-disk
state.  When the fetch fails before `zip_path` is assigned (line 340), the
except-handler itself dies dereferencing the unbound local at line 380,
so no cleanup runs — but nothing was written either. -/
def download_par2_standalone (env : Par2ProvEnv) (s : Par2Fs) : ProvRun :=
  match env.fetch with
  | .failEarly _ =>
    { fs := s, createdZip := false, createdDir := false,
      result := .error "UnboundLocalError: local variable zip_path referenced before assignment" }
  | .failMidWrite e =>
    { fs := par2Cleanup { s with zipPresent := true },
      createdZip := true, createdDir := false,
      result := .error ("Failed to download par2cmdline: " ++ e) }
  | .ok =>
    let s2 : Par2Fs := { s with zipPresent := true, dirPresent := true }
    if env.extractOk = false then
      { fs := par2Cleanup s2, createdZip := true, createdDir := true,
        result := .error ("Failed to download par2cmdline: " ++ env.extractErr) }
    else
      let s3 : Par2Fs := { s2 with zipPresent := false }
      let s4 : Par2Fs :=
        if env.walkFindsExe then { s3 with par2ExePresent := true } else s3
      { fs := s4, createdZip := true, createdDir := true,
        result := .ok localPar2Path }

/-- Result of one 7-Zip provisioning run. -/
structure Prov7zRun where
  /-- `nyuu_binaries/7zr.exe` exists afterwards -/
  local7zPresent : Bool
  /-- this run created (wrote into) the destination file -/
  createdFile : Bool
  result : Except String String
deriving Repr

/-- `NyuuDownloader.download_7zip_standalone`: streams the fixed URL to
`nyuu_binaries/7zr.exe`; on any exception the handler of lines 60-64
unlinks the destination if it exists before re-raising. -/
def download_7zip_standalone (fetch : FetchOutcome) (_local7z : Bool) : Prov7zRun :=
  match fetch with
  | .ok => { local7zPresent := true, createdFile := true, result := .ok local7zPath }
  | .failEarly e =>
    { local7zPresent := false, createdFile := false,
      result := .error ("Failed to download 7-Zip: " ++ e) }
  | .failMidWrite e =>
    { local7zPresent := false, createdFile := true,
      result := .error ("Failed to download 7-Zip: " ++ e) }

/-- C4: when standalone-tool provisioning fails, every partial artifact the
run created — the partially downloaded file and any partially extracted
directory — is gone from the final state before the failure propagates,
and the well-known local path the locator checks first (`par2.exe` under
the tool directory, resp. `7zr.exe`) is absent afterwards whenever it was
absent before the call (which it is, since provisioning only runs after
the locator failed to find it). -/
theorem C4_provisioning_cleanup (env : Par2ProvEnv) (s : Par2Fs)
    (fetch7 : FetchOutcome) (l7 : Bool) (hpre : s.par2ExePresent = false) :
    (∀ e, (download_par2_standalone env s).result = .error e →
      ((download_par2_standalone env s).createdZip = true →
        (download_par2_standalone env s).fs.zipPresent = false) ∧
      ((download_par2_standalone env s).createdDir = true →
        (download_par2_standalone env s).fs.dirPresent = false) ∧
      (download_par2_standalone env s).fs.par2ExePresent = false) ∧
    (∀ e, (download_7zip_standalone fetch7 l7).result = .error e →
      (download_7zip_standalone fetch7 l7).local7zPresent = false) := by
  constructor
  · intro e he
    cases hf : env.fetch with
    | failEarly err =>
      simp [download_par2_standalone, hf, par2Cleanup, hpre]
    | failMidWrite err =>
      by_cases hd : s.dirPresent = true <;>
        simp [download_par2_standalone, hf, par2Cleanup, hd, hpre]
    | ok =>
      by_cases hex : env.extractOk = false
      · simp [download_par2_standalone, hf, hex, par2Cleanup]
      · rw [download_par2_standalone, hf] at he
        simp [hex] at he
  · intro e he
    cases hf : fetch7 with
    | ok => rw [hf] at he; simp [download_7zip_standalone] at he
    | failEarly err => simp [download_7zip_standalone, hf]
    | failMidWrite err => simp [download_7zip_standalone, hf]

/-- Witness for C4: the par2 zip turns out corrupt (extraction fails) and
the 7-Zip fetch dies mid-write; all partial artifacts are gone. -/
theorem C4_provisioning_cleanup_witness :
    ((download_par2_standalone
        { fetch := .ok, extractOk := false, extractErr := "bad zip", walkFindsExe := false }
        ⟨false, false, false⟩).fs.zipPresent = false ∧
      (download_par2_standalone
        { fetch := .ok, extractOk := false, extractErr := "bad zip", walkFindsExe := false }
        ⟨false, false, false⟩).fs.dirPresent = false ∧
      (download_par2_standalone
        { fetch := .ok, extractOk := false, extractErr := "bad zip", walkFindsExe := false }
        ⟨false, false, false⟩).fs.par2ExePresent = false) ∧
    (download_7zip_standalone (.failMidWrite "conn reset") false).local7zPresent = false := by
  have h := C4_provisioning_cleanup
    { fetch := .ok, extractOk := false, extractErr := "bad zip", walkFindsExe := false }
    ⟨false, false, false⟩ (.failMidWrite "conn reset") false rfl
  obtain ⟨h1, h2⟩ := h
  have hp := h1 ("Failed to download par2cmdline: " ++ "bad zip") rfl
  exact ⟨⟨hp.1 rfl, hp.2.1 rfl, hp.2.2⟩, h2 ("Failed to download 7-Zip: " ++ "conn reset") rfl⟩

/-! ## RecoverySetGenerator: FileProcessor.create_par2 (lines 414-519) -/

/-- Environment for one `create_par2` call. -/
structure Par2Env where
  /-- result of the first `find_par2_executable` call -/
  find1 : Option String
  /-- `sys.platform == 'win32'` -/
  win32 : Bool
  /-- outcome of `download_par2_standalone` when attempted -/
  dl : DlOutcome
  /-- exit code of the par2 child process -/
  exitCode : Nat
  /-- `output_dir.glob(stem*.par2)` after a zero exit -/
  globOut : List String
deriving DecidableEq, Repr

/-- The par2 child-process step of lines 474-519: a zero exit returns
whatever the glob enumerates; a nonzero exit raises inside the try, which
the outer handler re-wraps with the `Failed to create PAR2 files` prefix. -/
def runPar2 (env : Par2Env) : Except String (List String) :=
  if env.exitCode = 0 then .ok env.globOut
  else .error ("Failed to create PAR2 files: PAR2 creation failed with exit code "
    ++ toString env.exitCode)

/-- `FileProcessor.create_par2`: validates the file list, resolves the par2
tool (attempting automatic provisioning on Windows — after a successful
download the staged local copy is what the re-run locator finds), then runs
the tool and on success enumerates the produced `.par2` artifacts. -/
def create_par2 (files : List String) (env : Par2Env) : Except String (List String) :=
  if files = [] then .error "No files provided for PAR2 creation"
  else
    match env.find1 with
    | some _ => runPar2 env
    | none =>
      if env.win32 then
        match env.dl with
        | .fail dErr =>
          .error ("Failed to download par2cmdline automatically: " ++ dErr
            ++ "\n\nPlease manually install par2cmdline from:\nhttps://github.com/Parchive/par2cmdline/releases")
        | .ok => runPar2 env
      else
        .error "PAR2 command-line tool not found.\n\nPlease install par2cmdline:\n- Linux: sudo apt-get install par2 (or yum install par2cmdline)\n- macOS: brew install par2\n- Windows: Download from https://github.com/Parchive/par2cmdline/releases"

/-- C6 counterexample: the par2 tool is found, exits with code 0, and the
artifact enumeration is empty — `create_par2` returns the empty list as a
successful result instead of surfacing an error condition. -/
theorem C6_empty_success_counterexample :
    create_par2 ["big.bin"]
      { find1 := some "par2", win32 := false, dl := .ok, exitCode := 0, globOut := [] } =
      .ok [] := rfl

/-- C6 amended: when the parity tool exits with code 0, `create_par2`
returns the enumerated artifact list as a success whatever its length; in
particular an empty enumeration is returned as a successful empty result,
not as an error. -/
theorem C6_empty_success_amended (files : List String) (env : Par2Env)
    (hf : files ≠ []) (hfound : env.find1.isSome = true) (hexit : env.exitCode = 0) :
    create_par2 files env = .ok env.globOut := by
  obtain ⟨c, hc⟩ := Option.isSome_iff_exists.mp hfound
  simp [create_par2, hf, hc, runPar2, hexit]

/-- Witness for the amended C6 theorem at the counterexample input. -/
theorem C6_empty_success_amended_witness :
    create_par2 ["big.bin"]
      { find1 := some "par2", win32 := true, dl := .ok, exitCode := 0, globOut := [] } =
      .ok [] :=
  C6_empty_success_amended ["big.bin"]
    { find1 := some "par2", win32 := true, dl := .ok, exitCode := 0, globOut := [] }
    (by decide) rfl rfl

end NyuuGui
